import Mathlib

/-
Shallow embedding of the `game_time` crate (rust-game-time), covering the
canonical modules `src/clock.rs`, `src/step.rs`, `src/framerate/sample.rs`
and `src/framerate/counter.rs`.

Modelling conventions:
- `FloatDuration` (f64 seconds) and `chrono::DateTime<Local>` timestamps are
  modelled as `ℚ` (exact arithmetic idealization of f64).
- `std::time::Duration` values are modelled as `ℚ`; the fallible conversion
  `FloatDuration::to_std`, which fails for negative values, is modelled by
  `FloatDuration.to_std : ℚ → Option ℚ`.  `GameClock::tick` unwraps that
  conversion, so `tick` is modelled as returning `Option`.
- `u64`/`u32` counters are `ℕ` with an explicit `% 2^64` / wrap where the
  source performs machine arithmetic.
- `GameClock::tick` samples `chrono::Local::now()`; the sampled instant is an
  explicit parameter `now` of the model.  Likewise for
  `GameTime::elapsed_time_since_frame_start`.
- `FnOnce(FloatDuration)` callbacks (the sleep action of
  `sleep_remaining_via`) are modelled by an `Option ℚ` result: `some r` means
  the action was invoked exactly once with argument `r`, `none` means it was
  not invoked.
-/

/-- Conversion `FloatDuration::to_std` (float_duration crate): converting a
floating-point duration to a `std::time::Duration` fails for negative values
(`std` durations are unsigned).  The (astronomically large) upper range bound
of `std::time::Duration` is not modelled. -/
def FloatDuration.to_std (d : ℚ) : Option ℚ :=
  if d < 0 then none else some d

/-- Method `FloatDuration::is_negative`. -/
def FloatDuration.is_negative (d : ℚ) : Bool :=
  decide (d < 0)

/-- Struct `GameTime` (src/clock.rs lines 22-29). -/
structure GameTime where
  frame_wall_time : ℚ
  frame_game_time : ℚ
  elapsed_game_time : ℚ
  elapsed_wall_time : ℚ
  frame_number : ℕ
deriving Repr

/-- Method `GameTime::elapsed_time_since_frame_start` (src/clock.rs lines
239-243); samples `chrono::Local::now()`, passed here as `now`. -/
def GameTime.elapsed_time_since_frame_start (t : GameTime) (now : ℚ) : ℚ :=
  now - t.frame_wall_time

/-- Method `GameTime::instantaneous_frame_rate` (src/clock.rs lines 258-260):
`1.0 / self.elapsed_game_time.as_seconds()`. -/
def GameTime.instantaneous_frame_rate (t : GameTime) : ℚ :=
  1 / t.elapsed_game_time

/-- Struct `GameClock` (src/clock.rs lines 49-56). -/
structure GameClock where
  last_frame_time : GameTime
  start_wall_time : ℚ
  total_game_time : ℚ
  current_frame : ℕ
  clock_multiplier : ℚ
deriving Repr

/-- Constructor `GameClock::new` (src/clock.rs lines 75-92); the sampled
`chrono::Local::now()` is the parameter `now`. -/
def GameClock.new (now : ℚ) : GameClock :=
  let start_game_time : GameTime :=
    { frame_wall_time := now
      frame_game_time := 0
      elapsed_game_time := 0
      elapsed_wall_time := 0
      frame_number := 0 }
  { last_frame_time := start_game_time
    start_wall_time := now
    total_game_time := 0
    current_frame := 0
    clock_multiplier := 1 }

/-- Accessor `GameClock::frame_wall_time` (src/clock.rs lines 109-111). -/
def GameClock.frame_wall_time (c : GameClock) : ℚ :=
  c.last_frame_time.frame_wall_time

/-- Setter `GameClock::set_clock_multiplier` (src/clock.rs lines 128-131). -/
def GameClock.set_clock_multiplier (c : GameClock) (val : ℚ) : GameClock :=
  { c with clock_multiplier := val }

/-- Trait `TimeStep` (src/step.rs) together with its three implementations,
as a closed strategy type.  `FixedStep` holds a `&C : FrameCount` of which it
only reads `target_time_per_frame() = FloatDuration::seconds(1.0) / rate`;
the model carries the counter's `target_frame_rate`. -/
inductive TimeStep where
  | variableStep : TimeStep
  | constantStep (step : ℚ) : TimeStep
  | fixedStep (target_frame_rate : ℚ) : TimeStep
deriving Repr

/-- Method `TimeStep::time_step` for the three impls (src/step.rs lines
51-68): `VariableStep` returns the wall time unchanged, `ConstantStep`
returns its fixed step, `FixedStep` returns the counter's target time per
frame. -/
def TimeStep.time_step : TimeStep → ℚ → ℚ
  | .variableStep, wall_time => wall_time
  | .constantStep step, _ => step
  | .fixedStep target_frame_rate, _ => 1 / target_frame_rate

/-- Constructor `ConstantStep::null_step` (src/step.rs lines 46-48). -/
def TimeStep.null_step : TimeStep :=
  .constantStep 0

/-- Method `GameClock::tick` (src/clock.rs lines 141-169) with the sampled
`chrono::Local::now()` as explicit parameter `frame_start`.  The frame
counter is a `u64` (`% 2^64`).  The source unwraps
`elapsed_game_time.to_std()`, which panics for a negative elapsed game time;
the model returns `none` in that case.  Returns the updated clock and the
emitted `GameTime`. -/
def GameClock.tick (c : GameClock) (time_progress : TimeStep) (frame_start : ℚ) :
    Option (GameClock × GameTime) :=
  let current_frame := (c.current_frame + 1) % 2 ^ 64
  let elapsed_wall_time := frame_start - c.frame_wall_time
  let elapsed_game_time := time_progress.time_step elapsed_wall_time * c.clock_multiplier
  match FloatDuration.to_std elapsed_game_time with
  | none => none
  | some elapsed_game_std =>
    let total_game_time := c.total_game_time + elapsed_game_std
    let time : GameTime :=
      { frame_wall_time := frame_start
        frame_game_time := total_game_time
        elapsed_game_time := elapsed_game_time
        elapsed_wall_time := elapsed_wall_time
        frame_number := current_frame }
    some ({ c with
            last_frame_time := time
            total_game_time := total_game_time
            current_frame := current_frame }, time)

/-- Iterated `GameClock::tick` over a list of sampled wall times, collecting
the emitted `GameTime` snapshots; fails if any tick fails. -/
def GameClock.tick_trace (c : GameClock) (time_progress : TimeStep) :
    List ℚ → Option (GameClock × List GameTime)
  | [] => some (c, [])
  | w :: ws =>
    match c.tick time_progress w with
    | none => none
    | some (c', t) =>
      match c'.tick_trace time_progress ws with
      | none => none
      | some (c'', ts) => some (c'', t :: ts)

/-- Struct `GameClockBuilder` (src/clock.rs lines 64-70). -/
structure GameClockBuilder where
  start_game_time : ℚ
  start_wall_time : ℚ
  start_frame : ℕ
  clock_multiplier : ℚ
deriving Repr

/-- Constructor `GameClockBuilder::new` (src/clock.rs lines 268-275); the
sampled `chrono::Local::now()` is the parameter `now`. -/
def GameClockBuilder.new (now : ℚ) : GameClockBuilder :=
  { start_game_time := 0
    start_wall_time := now
    start_frame := 0
    clock_multiplier := 1 }

/-- Builder method `GameClockBuilder::start_game_time` (src/clock.rs lines
280-283). -/
def GameClockBuilder.set_start_game_time (b : GameClockBuilder) (time : ℚ) :
    GameClockBuilder :=
  { b with start_game_time := time }

/-- Builder method `GameClockBuilder::start_frame` (src/clock.rs lines
297-300). -/
def GameClockBuilder.set_start_frame (b : GameClockBuilder) (frame_num : ℕ) :
    GameClockBuilder :=
  { b with start_frame := frame_num }

/-- Builder method `GameClockBuilder::clock_multiplier` (src/clock.rs lines
304-307). -/
def GameClockBuilder.set_clock_multiplier (b : GameClockBuilder) (multiplier : ℚ) :
    GameClockBuilder :=
  { b with clock_multiplier := multiplier }

/-- Method `GameClock::sleep_remaining_via` (src/clock.rs lines 182-192),
generic over `C : FrameCount`; the only method of the counter it uses is
`target_time_per_frame()`, passed in here as the evaluated value
`target_time_per_frame`.  `elapsed_time_since_frame_start` samples
`chrono::Local::now()`, passed as `now`.  The `FnOnce` sleep action `f` is
modelled by the result: `some r` means `f` was invoked exactly once with
`r`, `none` means `f` was never invoked. -/
def GameClock.sleep_remaining_via (c : GameClock) (target_time_per_frame : ℚ)
    (now : ℚ) : Option ℚ :=
  let remaining_time :=
    target_time_per_frame - c.last_frame_time.elapsed_time_since_frame_start now
  if FloatDuration.is_negative remaining_time then none else some remaining_time

/-- Method `GameClockBuilder::build` (src/clock.rs lines 309-326).  Note that
the source initializes the clock's `total_game_time` accumulator to
`time::Duration::new(0, 0)`, not to `self.start_game_time`. -/
def GameClockBuilder.build (b : GameClockBuilder) : GameClock :=
  let start_game_time : GameTime :=
    { frame_wall_time := b.start_wall_time
      frame_game_time := b.start_game_time
      elapsed_game_time := 0
      elapsed_wall_time := 0
      frame_number := b.start_frame }
  { last_frame_time := start_game_time
    start_wall_time := b.start_wall_time
    total_game_time := 0
    current_frame := b.start_frame
    clock_multiplier := b.clock_multiplier }

/-- Constant `DEFAULT_NUM_SAMPLES` (src/framerate/sample.rs line 9). -/
def DEFAULT_NUM_SAMPLES : ℕ := 64

/-- The instantaneous frame rate fed to both samplers:
`let effective_fps = 1.0 / time.elapsed_wall_time().as_seconds();`
(src/framerate/sample.rs lines 68 and 107). -/
def effective_fps (time : GameTime) : ℚ :=
  1 / time.elapsed_wall_time

/-- Rust `u32` wrapping subtraction of 1, modelling the machine arithmetic of
`(num_samples - 1)` in src/framerate/sample.rs line 69 (which wraps in
release builds; for `1 ≤ n < 2^32` it is plain subtraction). -/
def u32_sub_one (n : ℕ) : ℕ :=
  (n + (2 ^ 32 - 1)) % 2 ^ 32

/-- Struct `RunningAverageSampler` (src/framerate/sample.rs lines 31-36);
`max_samples` and `current_samples` are `u32`. -/
structure RunningAverageSampler where
  max_samples : ℕ
  current_samples : ℕ
  current_average : ℚ
deriving Repr

/-- Constructor `RunningAverageSampler::with_max_samples`
(src/framerate/sample.rs lines 52-58). -/
def RunningAverageSampler.with_max_samples (max_samples : ℕ) :
    RunningAverageSampler :=
  { max_samples := max_samples
    current_samples := 0
    current_average := 0 }

/-- Constructor `RunningAverageSampler::new` (src/framerate/sample.rs lines
47-49). -/
def RunningAverageSampler.new : RunningAverageSampler :=
  RunningAverageSampler.with_max_samples DEFAULT_NUM_SAMPLES

/-- Method `is_saturated` of `impl FrameRateSampler for RunningAverageSampler`
(src/framerate/sample.rs lines 77-79). -/
def RunningAverageSampler.is_saturated (s : RunningAverageSampler) : Bool :=
  s.current_samples == s.max_samples

/-- Method `tick` of `impl FrameRateSampler for RunningAverageSampler`
(src/framerate/sample.rs lines 62-73).  `current_samples + 1` cannot
overflow `u32` because it is guarded by the saturation check, so only the
`num_samples - 1` subtraction is modelled as machine arithmetic. -/
def RunningAverageSampler.tick (s : RunningAverageSampler) (time : GameTime) :
    RunningAverageSampler :=
  let current_samples :=
    if s.is_saturated then s.current_samples else s.current_samples + 1
  let num_samples := current_samples
  let new_average :=
    (s.current_average * (u32_sub_one num_samples : ℚ) + effective_fps time) /
      (num_samples : ℚ)
  { s with current_samples := current_samples, current_average := new_average }

/-- Method `average_frame_rate` of `impl FrameRateSampler for
RunningAverageSampler` (src/framerate/sample.rs lines 74-76). -/
def RunningAverageSampler.average_frame_rate (s : RunningAverageSampler) : ℚ :=
  s.current_average

/-- Iterated `RunningAverageSampler::tick` over successive `GameTime`
snapshots. -/
def RunningAverageSampler.ticks (s : RunningAverageSampler)
    (ts : List GameTime) : RunningAverageSampler :=
  ts.foldl RunningAverageSampler.tick s

/-- Struct `LinearAverageSampler` (src/framerate/sample.rs lines 40-43); the
`VecDeque<f64>` is a list with its front at the head. -/
structure LinearAverageSampler where
  past_data : List ℚ
  max_samples : ℕ
deriving Repr

/-- Constructor `LinearAverageSampler::with_max_samples`
(src/framerate/sample.rs lines 97-102). -/
def LinearAverageSampler.with_max_samples (max_samples : ℕ) :
    LinearAverageSampler :=
  { past_data := []
    max_samples := max_samples }

/-- Constructor `LinearAverageSampler::new` (src/framerate/sample.rs lines
93-95). -/
def LinearAverageSampler.new : LinearAverageSampler :=
  LinearAverageSampler.with_max_samples DEFAULT_NUM_SAMPLES

/-- Method `is_saturated` of `impl FrameRateSampler for LinearAverageSampler`
(src/framerate/sample.rs lines 119-121). -/
def LinearAverageSampler.is_saturated (s : LinearAverageSampler) : Bool :=
  s.past_data.length == s.max_samples

/-- Method `tick` of `impl FrameRateSampler for LinearAverageSampler`
(src/framerate/sample.rs lines 106-113): evict the front if at capacity
(`VecDeque::pop_front` on an empty deque removes nothing, matching
`List.tail [] = []`), then push the new rate at the back. -/
def LinearAverageSampler.tick (s : LinearAverageSampler) (time : GameTime) :
    LinearAverageSampler :=
  let past_data := if s.is_saturated then s.past_data.tail else s.past_data
  { s with past_data := past_data ++ [effective_fps time] }

/-- Method `average_frame_rate` of `impl FrameRateSampler for
LinearAverageSampler` (src/framerate/sample.rs lines 115-118). -/
def LinearAverageSampler.average_frame_rate (s : LinearAverageSampler) : ℚ :=
  s.past_data.sum / (s.past_data.length : ℚ)

/-- Iterated `LinearAverageSampler::tick` over successive `GameTime`
snapshots. -/
def LinearAverageSampler.ticks (s : LinearAverageSampler)
    (ts : List GameTime) : LinearAverageSampler :=
  ts.foldl LinearAverageSampler.tick s

/-- Constant `DEFAULT_SLOW_THRESHOLD` (src/framerate/counter.rs line 9);
`0.95` is idealized to the exact rational `19/20`. -/
def DEFAULT_SLOW_THRESHOLD : ℚ := 0.95

/-- Struct `FrameCounter<S>` (src/framerate/counter.rs lines 32-36), generic
over the sampler type. -/
structure FrameCounter (S : Type) where
  target_frame_rate : ℚ
  slow_threshold : ℚ
  sampler : S
deriving Repr

/-- Constructor `FrameCounter::new` (src/framerate/counter.rs lines 40-46):
stores the given target frame rate unvalidated and the default slow
threshold. -/
def FrameCounter.new {S : Type} (target_frame_rate : ℚ) (sampler : S) :
    FrameCounter S :=
  { target_frame_rate := target_frame_rate
    slow_threshold := DEFAULT_SLOW_THRESHOLD
    sampler := sampler }

/-- Setter `FrameCounter::set_slow_threshold` (src/framerate/counter.rs lines
48-51): stores the given value unvalidated. -/
def FrameCounter.set_slow_threshold {S : Type} (c : FrameCounter S) (val : ℚ) :
    FrameCounter S :=
  { c with slow_threshold := val }

/-- Method `target_time_per_frame` of `impl FrameCount for FrameCounter`
(src/framerate/counter.rs lines 81-83):
`FloatDuration::seconds(1.0) / self.target_frame_rate`. -/
def FrameCounter.target_time_per_frame {S : Type} (c : FrameCounter S) : ℚ :=
  1 / c.target_frame_rate

/-- Method `is_running_slow` of `impl FrameCount for FrameCounter`
(src/framerate/counter.rs lines 93-97). -/
def FrameCounter.is_running_slow {S : Type} (c : FrameCounter S)
    (time : GameTime) : Bool :=
  decide (c.target_time_per_frame / time.elapsed_wall_time ≤ c.slow_threshold)

/-- Helper: the exact result of `GameClock::tick` when the computed elapsed
game time is nonnegative (so the `to_std` conversion succeeds) and the `u64`
frame counter does not wrap. -/
theorem GameClock.tick_eq_of_nonneg (c : GameClock) (st : TimeStep) (now : ℚ)
    (hframe : c.current_frame + 1 < 2 ^ 64)
    (hgame : 0 ≤ st.time_step (now - c.frame_wall_time) * c.clock_multiplier) :
    c.tick st now = some (
      { last_frame_time :=
          { frame_wall_time := now
            frame_game_time := c.total_game_time +
              st.time_step (now - c.frame_wall_time) * c.clock_multiplier
            elapsed_game_time := st.time_step (now - c.frame_wall_time) * c.clock_multiplier
            elapsed_wall_time := now - c.frame_wall_time
            frame_number := c.current_frame + 1 }
        start_wall_time := c.start_wall_time
        total_game_time := c.total_game_time +
          st.time_step (now - c.frame_wall_time) * c.clock_multiplier
        current_frame := c.current_frame + 1
        clock_multiplier := c.clock_multiplier },
      { frame_wall_time := now
        frame_game_time := c.total_game_time +
          st.time_step (now - c.frame_wall_time) * c.clock_multiplier
        elapsed_game_time := st.time_step (now - c.frame_wall_time) * c.clock_multiplier
        elapsed_wall_time := now - c.frame_wall_time
        frame_number := c.current_frame + 1 }) := by
  simp only [GameClock.tick, FloatDuration.to_std, if_neg (not_lt.mpr hgame),
    Nat.mod_eq_of_lt hframe]

/-- Claim C1 (amended): a call to `tick` performs exactly the specified
transition — `elapsed_wall = now - frame_wall_time`,
`elapsed_game = stepper.time_step(elapsed_wall) * clock_multiplier`,
`total_game_time += elapsed_game`, `current_frame += 1`,
`frame_wall_time = now`, returning a `GameTime` carrying exactly these five
values — provided the computed elapsed game time is nonnegative (otherwise
the `to_std().unwrap()` in the source panics) and the `u64` frame counter
does not wrap. -/
theorem c1_tick_transition (c : GameClock) (st : TimeStep) (now : ℚ)
    (hframe : c.current_frame + 1 < 2 ^ 64)
    (hgame : 0 ≤ st.time_step (now - c.frame_wall_time) * c.clock_multiplier) :
    c.tick st now = some (
      { last_frame_time :=
          { frame_wall_time := now
            frame_game_time := c.total_game_time +
              st.time_step (now - c.frame_wall_time) * c.clock_multiplier
            elapsed_game_time := st.time_step (now - c.frame_wall_time) * c.clock_multiplier
            elapsed_wall_time := now - c.frame_wall_time
            frame_number := c.current_frame + 1 }
        start_wall_time := c.start_wall_time
        total_game_time := c.total_game_time +
          st.time_step (now - c.frame_wall_time) * c.clock_multiplier
        current_frame := c.current_frame + 1
        clock_multiplier := c.clock_multiplier },
      { frame_wall_time := now
        frame_game_time := c.total_game_time +
          st.time_step (now - c.frame_wall_time) * c.clock_multiplier
        elapsed_game_time := st.time_step (now - c.frame_wall_time) * c.clock_multiplier
        elapsed_wall_time := now - c.frame_wall_time
        frame_number := c.current_frame + 1 }) :=
  GameClock.tick_eq_of_nonneg c st now hframe hgame

/-- Claim C1 witness: the transition theorem applied to a concrete clock
(`GameClock.new 0`, wall time sampled at `2`, variable step). -/
theorem c1_tick_transition_witness :
    (GameClock.new 0).current_frame + 1 < 2 ^ 64 ∧
    0 ≤ TimeStep.variableStep.time_step (2 - (GameClock.new 0).frame_wall_time) *
        (GameClock.new 0).clock_multiplier ∧
    (GameClock.new 0).tick TimeStep.variableStep 2 = some (
      { last_frame_time :=
          { frame_wall_time := 2
            frame_game_time := (GameClock.new 0).total_game_time +
              TimeStep.variableStep.time_step (2 - (GameClock.new 0).frame_wall_time) *
                (GameClock.new 0).clock_multiplier
            elapsed_game_time :=
              TimeStep.variableStep.time_step (2 - (GameClock.new 0).frame_wall_time) *
                (GameClock.new 0).clock_multiplier
            elapsed_wall_time := 2 - (GameClock.new 0).frame_wall_time
            frame_number := (GameClock.new 0).current_frame + 1 }
        start_wall_time := (GameClock.new 0).start_wall_time
        total_game_time := (GameClock.new 0).total_game_time +
          TimeStep.variableStep.time_step (2 - (GameClock.new 0).frame_wall_time) *
            (GameClock.new 0).clock_multiplier
        current_frame := (GameClock.new 0).current_frame + 1
        clock_multiplier := (GameClock.new 0).clock_multiplier },
      { frame_wall_time := 2
        frame_game_time := (GameClock.new 0).total_game_time +
          TimeStep.variableStep.time_step (2 - (GameClock.new 0).frame_wall_time) *
            (GameClock.new 0).clock_multiplier
        elapsed_game_time :=
          TimeStep.variableStep.time_step (2 - (GameClock.new 0).frame_wall_time) *
            (GameClock.new 0).clock_multiplier
        elapsed_wall_time := 2 - (GameClock.new 0).frame_wall_time
        frame_number := (GameClock.new 0).current_frame + 1 }) :=
  ⟨by norm_num [GameClock.new],
   by norm_num [GameClock.new, GameClock.frame_wall_time, TimeStep.time_step],
   c1_tick_transition (GameClock.new 0) TimeStep.variableStep 2
     (by norm_num [GameClock.new])
     (by norm_num [GameClock.new, GameClock.frame_wall_time, TimeStep.time_step])⟩

/-- Claim C1 counterexample: on a clock with `clock_multiplier = -1` and a
positive elapsed wall time, `tick` does not perform the claimed transition
and returns no `GameTime` at all: the source panics on
`elapsed_game_time.to_std().unwrap()` because the elapsed game time is
negative (modelled as `none`). -/
theorem c1_tick_fails_on_negative_elapsed_game :
    ((GameClock.new 0).set_clock_multiplier (-1)).tick TimeStep.variableStep 1 = none := by
  norm_num [GameClock.tick, GameClock.new, GameClock.set_clock_multiplier,
    FloatDuration.to_std, TimeStep.time_step, GameClock.frame_wall_time]

/-- Claim C2 (code bug): the per-tick invariant
`frame_game_time(n) = frame_game_time(n-1) + elapsed_game_time(n)` fails on
the first tick of a builder-constructed clock with a nonzero start game
time.  `GameClockBuilder::build` stores `start_game_time` into the initial
`GameTime` (here `100`) but initializes the clock's `total_game_time`
accumulator to zero, so one tick with `ConstantStep(1)` yields
`frame_game_time = 1` instead of the required `100 + 1`. -/
theorem c2_builder_start_game_time_lost :
    ((((GameClockBuilder.new 0).set_start_game_time 100).build).last_frame_time.frame_game_time
      = 100) ∧
    ((((GameClockBuilder.new 0).set_start_game_time 100).build.tick
        (TimeStep.constantStep 1) 1).map (fun r => r.2.frame_game_time) = some 1) ∧
    (1 : ℚ) ≠ 100 + 1 := by
  refine ⟨rfl, ?_, by norm_num⟩
  norm_num [GameClock.tick, GameClockBuilder.new, GameClockBuilder.set_start_game_time,
    GameClockBuilder.build, FloatDuration.to_std, TimeStep.time_step, GameClock.frame_wall_time]

/-- Claim C3 (amended): `tick` is total — it returns a `GameTime` without
failing — whenever the computed elapsed game time
`stepper.time_step(elapsed_wall) * clock_multiplier` is nonnegative (in
particular for any nonnegative multiplier with a nonnegative step, and for a
zero multiplier).  For a negative elapsed game time the conversion of the
elapsed game time to a `std` duration fails. -/
theorem c3_tick_total_on_nonneg (c : GameClock) (st : TimeStep) (now : ℚ)
    (hgame : 0 ≤ st.time_step (now - c.frame_wall_time) * c.clock_multiplier) :
    (c.tick st now).isSome = true := by
  simp only [GameClock.tick, FloatDuration.to_std, if_neg (not_lt.mpr hgame)]
  rfl

/-- Claim C3 witness: a zero multiplier (frozen game time) never makes `tick`
fail. -/
theorem c3_tick_total_on_nonneg_witness :
    0 ≤ TimeStep.variableStep.time_step
        (7 - ((GameClock.new 0).set_clock_multiplier 0).frame_wall_time) *
        ((GameClock.new 0).set_clock_multiplier 0).clock_multiplier ∧
    ((((GameClock.new 0).set_clock_multiplier 0).tick TimeStep.variableStep 7).isSome = true) :=
  ⟨by norm_num [GameClock.new, GameClock.set_clock_multiplier, GameClock.frame_wall_time,
      TimeStep.time_step],
   c3_tick_total_on_nonneg ((GameClock.new 0).set_clock_multiplier 0) TimeStep.variableStep 7
     (by norm_num [GameClock.new, GameClock.set_clock_multiplier, GameClock.frame_wall_time,
        TimeStep.time_step])⟩

/-- Claim C3 counterexample: with the finite negative multiplier `-2` (which
the claim says runs game time backward without failing) and a positive
constant step, `tick` fails: the negative elapsed game time cannot be
converted to the unsigned `std::time::Duration` accumulator, and the source
panics on `unwrap()` (modelled as `none`). -/
theorem c3_tick_fails_on_negative_multiplier :
    ((GameClock.new 0).set_clock_multiplier (-2)).tick (TimeStep.constantStep 1) 5 = none := by
  norm_num [GameClock.tick, GameClock.new, GameClock.set_clock_multiplier,
    FloatDuration.to_std, TimeStep.time_step, GameClock.frame_wall_time]

/-- Claim C6: `sleep_remaining_via(counter, f)` invokes `f` exactly once with
`target_time_per_frame() - elapsed_time_since_frame_start()` when that value
is nonnegative (result `some remaining`), and never invokes `f` when it is
negative (result `none`). -/
theorem c6_sleep_remaining_via {A : Type} (c : GameClock) (ctr : FrameCounter A)
    (now : ℚ) :
    (0 ≤ ctr.target_time_per_frame - c.last_frame_time.elapsed_time_since_frame_start now →
      c.sleep_remaining_via ctr.target_time_per_frame now =
        some (ctr.target_time_per_frame -
          c.last_frame_time.elapsed_time_since_frame_start now)) ∧
    (ctr.target_time_per_frame - c.last_frame_time.elapsed_time_since_frame_start now < 0 →
      c.sleep_remaining_via ctr.target_time_per_frame now = none) := by
  constructor <;> intro h
  · simp [GameClock.sleep_remaining_via, FloatDuration.is_negative, not_lt.mpr h]
  · simp [GameClock.sleep_remaining_via, FloatDuration.is_negative, h]

/-- Claim C6 witness: a counter with target rate 20 (period 1/20 s) and a
frame that has consumed 1/100 s so far sleeps for exactly 1/20 - 1/100. -/
theorem c6_sleep_remaining_via_witness :
    (0 ≤ (FrameCounter.new 20 (RunningAverageSampler.with_max_samples 1)).target_time_per_frame -
        (GameClock.new 0).last_frame_time.elapsed_time_since_frame_start (1 / 100)) ∧
    (GameClock.new 0).sleep_remaining_via
        (FrameCounter.new 20 (RunningAverageSampler.with_max_samples 1)).target_time_per_frame
        (1 / 100) =
      some ((FrameCounter.new 20 (RunningAverageSampler.with_max_samples 1)).target_time_per_frame -
        (GameClock.new 0).last_frame_time.elapsed_time_since_frame_start (1 / 100)) :=
  ⟨by norm_num [FrameCounter.new, FrameCounter.target_time_per_frame, GameClock.new,
      GameTime.elapsed_time_since_frame_start],
   (c6_sleep_remaining_via (GameClock.new 0)
       (FrameCounter.new 20 (RunningAverageSampler.with_max_samples 1)) (1 / 100)).1
     (by norm_num [FrameCounter.new, FrameCounter.target_time_per_frame, GameClock.new,
        GameTime.elapsed_time_since_frame_start])⟩

/-- Claim C7: for every `FrameCounter` and every `GameTime` with positive
elapsed wall time, `is_running_slow(time)` is true iff
`target_time_per_frame().seconds / time.elapsed_wall_time().seconds <=
slow_threshold`; the threshold defaults to `0.95` on construction, and
`target_time_per_frame()` equals `1.0 / target_frame_rate` seconds. -/
theorem c7_is_running_slow {A : Type} (c : FrameCounter A) (t : GameTime)
    (_hwall : 0 < t.elapsed_wall_time) :
    (c.is_running_slow t = true ↔
      c.target_time_per_frame / t.elapsed_wall_time ≤ c.slow_threshold) ∧
    (∀ (r : ℚ) (s : A), (FrameCounter.new r s).slow_threshold = DEFAULT_SLOW_THRESHOLD) ∧
    DEFAULT_SLOW_THRESHOLD = 0.95 ∧
    c.target_time_per_frame = 1 / c.target_frame_rate := by
  exact ⟨by simp [FrameCounter.is_running_slow], fun r s => rfl, rfl, rfl⟩

/-- Claim C7 witness: the spec's concrete scenario — target rate 20 (period
50 ms) and a frame with 100 ms elapsed wall time is flagged slow
(`(1/20) / (1/10) = 1/2 ≤ 0.95`). -/
theorem c7_is_running_slow_witness :
    (0 < (1 / 10 : ℚ)) ∧
    ((FrameCounter.new 20 (RunningAverageSampler.with_max_samples 10)).is_running_slow
        { frame_wall_time := 0, frame_game_time := 0, elapsed_game_time := 1 / 10,
          elapsed_wall_time := 1 / 10, frame_number := 1 } = true) :=
  ⟨by norm_num,
   ((c7_is_running_slow (FrameCounter.new 20 (RunningAverageSampler.with_max_samples 10))
       { frame_wall_time := 0, frame_game_time := 0, elapsed_game_time := 1 / 10,
         elapsed_wall_time := 1 / 10, frame_number := 1 } (by norm_num)).1).mpr
     (by norm_num [FrameCounter.new, FrameCounter.target_time_per_frame,
        DEFAULT_SLOW_THRESHOLD])⟩

/-- Claim C9 (amended): `FrameCounter::new` and `set_slow_threshold` perform
no validation at all — any target frame rate (including zero and negative
values) and any slow threshold are stored unchanged, and
`target_time_per_frame()` then divides by the unvalidated rate. -/
theorem c9_counter_accepts_unvalidated {A : Type} :
    ∀ (r v : ℚ) (s : A),
      (FrameCounter.new r s).target_frame_rate = r ∧
      (FrameCounter.new r s).slow_threshold = DEFAULT_SLOW_THRESHOLD ∧
      ((FrameCounter.new r s).set_slow_threshold v).slow_threshold = v ∧
      (FrameCounter.new r s).target_time_per_frame = 1 / r :=
  fun _ _ _ => ⟨rfl, rfl, rfl, rfl⟩

/-- Claim C9 counterexample: constructing a `FrameCounter` with the malformed
configuration `target_frame_rate = 0` is not rejected — the constructor
succeeds and stores the zero rate (which `target_time_per_frame()` then
divides by), and `set_slow_threshold` likewise accepts a threshold outside
`(0,1]`. -/
theorem c9_malformed_config_accepted :
    (FrameCounter.new 0 (RunningAverageSampler.with_max_samples 1)).target_frame_rate = 0 ∧
    ((FrameCounter.new (-5) (RunningAverageSampler.with_max_samples 1)).set_slow_threshold
        2).slow_threshold = 2 :=
  ⟨rfl, rfl⟩

/-- Claim C10: both samplers feed on `1.0 / elapsed_wall_time()` (shown on a
fresh sampler of any positive capacity: one tick makes it the running
average, resp. the single stored sample), whereas
`GameTime::instantaneous_frame_rate()` returns `1.0 / elapsed_game_time()`;
whenever the two elapsed times differ, the sampler input differs from the
snapshot's own instantaneous rate. -/
theorem c10_sampler_rate_source (S : ℕ) (hS : 1 ≤ S) (t : GameTime) :
    ((RunningAverageSampler.with_max_samples S).tick t).current_average
      = 1 / t.elapsed_wall_time ∧
    ((LinearAverageSampler.with_max_samples S).tick t).past_data
      = [1 / t.elapsed_wall_time] ∧
    t.instantaneous_frame_rate = 1 / t.elapsed_game_time ∧
    (t.elapsed_game_time ≠ t.elapsed_wall_time →
      1 / t.elapsed_wall_time ≠ t.instantaneous_frame_rate) := by
  have h0 : S ≠ 0 := by omega
  refine ⟨?_, ?_, rfl, ?_⟩
  · have hsub : u32_sub_one 1 = 0 := by norm_num [u32_sub_one]
    simp [RunningAverageSampler.tick, RunningAverageSampler.with_max_samples,
      RunningAverageSampler.is_saturated, effective_fps, hsub, Ne.symm h0]
  · simp [LinearAverageSampler.tick, LinearAverageSampler.with_max_samples,
      LinearAverageSampler.is_saturated, effective_fps, Ne.symm h0]
  · intro hne heq
    rw [GameTime.instantaneous_frame_rate, one_div, one_div] at heq
    exact hne (inv_injective heq).symm

/-- Claim C10 witness: with elapsed wall time 1/2 s and elapsed game time
1/4 s, the samplers' input is 2 fps while the snapshot's own instantaneous
rate is 4 fps. -/
theorem c10_sampler_rate_source_witness :
    (1 ≤ 1) ∧
    ((1 / 4 : ℚ) ≠ 1 / 2) ∧
    (((RunningAverageSampler.with_max_samples 1).tick
        { frame_wall_time := 0, frame_game_time := 0, elapsed_game_time := 1 / 4,
          elapsed_wall_time := 1 / 2, frame_number := 1 }).current_average = 2) ∧
    ((1 / (1 / 2 : ℚ)) ≠
      GameTime.instantaneous_frame_rate
        { frame_wall_time := 0, frame_game_time := 0, elapsed_game_time := 1 / 4,
          elapsed_wall_time := 1 / 2, frame_number := 1 }) :=
  ⟨by norm_num, by norm_num,
   by
    have h := (c10_sampler_rate_source 1 (by norm_num)
      { frame_wall_time := 0, frame_game_time := 0, elapsed_game_time := 1 / 4,
        elapsed_wall_time := 1 / 2, frame_number := 1 }).1
    rw [h]; norm_num,
   (c10_sampler_rate_source 1 (by norm_num)
      { frame_wall_time := 0, frame_game_time := 0, elapsed_game_time := 1 / 4,
        elapsed_wall_time := 1 / 2, frame_number := 1 }).2.2.2 (by norm_num)⟩

/-- Helper: before saturation the running average is the exact cumulative
mean — folding `RunningAverageSampler::tick` over at most `max_samples`
snapshots counts them and averages their instantaneous rates. -/
theorem running_ticks_cumulative_mean (S : ℕ) (hS1 : 1 ≤ S) (hS32 : S < 2 ^ 32)
    (ts : List GameTime) (h : ts.length ≤ S) :
    ((RunningAverageSampler.with_max_samples S).ticks ts).max_samples = S ∧
    ((RunningAverageSampler.with_max_samples S).ticks ts).current_samples = ts.length ∧
    ((RunningAverageSampler.with_max_samples S).ticks ts).current_average
      = (ts.map effective_fps).sum / (ts.length : ℚ) := by
  induction ts using List.reverseRecOn with
  | nil =>
    refine ⟨rfl, rfl, ?_⟩
    simp [RunningAverageSampler.ticks, RunningAverageSampler.with_max_samples]
  | append_singleton xs x ih =>
    have hlen : xs.length + 1 ≤ S := by simpa using h
    obtain ⟨hmax, hcnt, havg⟩ := ih (by omega)
    have hsat : ((RunningAverageSampler.with_max_samples S).ticks xs).is_saturated = false := by
      simp only [RunningAverageSampler.is_saturated, hmax, hcnt, beq_eq_false_iff_ne, ne_eq]
      omega
    have hsub : u32_sub_one (xs.length + 1) = xs.length := by
      unfold u32_sub_one
      have he : xs.length + 1 + (2 ^ 32 - 1) = xs.length + 2 ^ 32 := by omega
      rw [he, Nat.add_mod_right, Nat.mod_eq_of_lt (by omega)]
    have hstep : (RunningAverageSampler.with_max_samples S).ticks (xs ++ [x])
        = ((RunningAverageSampler.with_max_samples S).ticks xs).tick x := by
      simp [RunningAverageSampler.ticks]
    rw [hstep]
    refine ⟨by simp [RunningAverageSampler.tick, hsat, hmax], ?_, ?_⟩
    · simp [RunningAverageSampler.tick, hsat, hcnt]
    · simp only [RunningAverageSampler.tick, hsat, Bool.false_eq_true, if_false, hcnt, hsub,
        havg, List.map_append, List.map_cons, List.map_nil, List.sum_append, List.sum_cons,
        List.sum_nil, List.length_append, List.length_cons, List.length_nil]
      rcases Nat.eq_zero_or_pos xs.length with h0 | hpos
      · obtain rfl : xs = [] := List.length_eq_zero.mp h0
        simp
      · have hne : ((xs.length : ℚ)) ≠ 0 := by
          exact_mod_cast Nat.pos_iff_ne_zero.mp hpos
        rw [div_mul_cancel₀ _ hne]
        push_cast
        ring_nf

/-- Claim C4: for a `RunningAverageSampler` of capacity `max_samples` (a
nonzero `u32`): while fewer than `max_samples` rates have been observed,
`current_samples` counts one per tick and the average is the exact
arithmetic mean of the observed instantaneous rates; once
`current_samples == max_samples`, it stays fixed and each tick applies
`avg_n = (avg_{n-1}*(S-1) + x_n) / S` with `S = max_samples`. -/
theorem c4_running_average_sampler (S : ℕ) (hS1 : 1 ≤ S) (hS32 : S < 2 ^ 32) :
    (∀ ts : List GameTime, ts.length ≤ S →
      ((RunningAverageSampler.with_max_samples S).ticks ts).current_samples = ts.length ∧
      ((RunningAverageSampler.with_max_samples S).ticks ts).average_frame_rate
        = (ts.map effective_fps).sum / (ts.length : ℚ)) ∧
    (∀ (s : RunningAverageSampler) (t : GameTime),
      s.max_samples = S → s.current_samples = S →
      (s.tick t).current_samples = S ∧
      (s.tick t).average_frame_rate
        = (s.average_frame_rate * ((S : ℚ) - 1) + effective_fps t) / (S : ℚ)) := by
  constructor
  · intro ts h
    obtain ⟨-, hcnt, havg⟩ := running_ticks_cumulative_mean S hS1 hS32 ts h
    exact ⟨hcnt, havg⟩
  · intro s t hmax hcnt
    have hsat : s.is_saturated = true := by
      simp [RunningAverageSampler.is_saturated, hmax, hcnt]
    have hsub : u32_sub_one S = S - 1 := by
      unfold u32_sub_one
      have he : S + (2 ^ 32 - 1) = S - 1 + 2 ^ 32 := by omega
      rw [he, Nat.add_mod_right, Nat.mod_eq_of_lt (by omega)]
    constructor
    · simp [RunningAverageSampler.tick, hsat, hcnt]
    · simp only [RunningAverageSampler.tick, RunningAverageSampler.average_frame_rate, hsat,
        if_true, hcnt, hsub, Nat.cast_sub hS1, Nat.cast_one]

/-- Claim C4 witness: capacity 2; rates 2 and 4 fps give the cumulative mean
3 fps, and a saturated tick with rate 8 fps updates `(3*(2-1) + 8) / 2`. -/
theorem c4_running_average_sampler_witness :
    (1 ≤ 2 ∧ 2 < 2 ^ 32) ∧
    (((RunningAverageSampler.with_max_samples 2).ticks
        [{ frame_wall_time := 0, frame_game_time := 0, elapsed_game_time := 1 / 2,
           elapsed_wall_time := 1 / 2, frame_number := 1 },
         { frame_wall_time := 0, frame_game_time := 0, elapsed_game_time := 1 / 4,
           elapsed_wall_time := 1 / 4, frame_number := 2 }]).average_frame_rate = 3) ∧
    ((⟨2, 2, 3⟩ : RunningAverageSampler).tick
        { frame_wall_time := 0, frame_game_time := 0, elapsed_game_time := 1 / 8,
          elapsed_wall_time := 1 / 8, frame_number := 3 }).average_frame_rate
      = (3 * ((2 : ℚ) - 1) + 8) / 2 := by
  refine ⟨⟨by norm_num, by norm_num⟩, ?_, ?_⟩
  · have h := ((c4_running_average_sampler 2 (by norm_num) (by norm_num)).1
      [{ frame_wall_time := 0, frame_game_time := 0, elapsed_game_time := 1 / 2,
         elapsed_wall_time := 1 / 2, frame_number := 1 },
       { frame_wall_time := 0, frame_game_time := 0, elapsed_game_time := 1 / 4,
         elapsed_wall_time := 1 / 4, frame_number := 2 }] (by norm_num)).2
    rw [h]
    norm_num [effective_fps]
  · have h := ((c4_running_average_sampler 2 (by norm_num) (by norm_num)).2
      (⟨2, 2, 3⟩ : RunningAverageSampler)
      { frame_wall_time := 0, frame_game_time := 0, elapsed_game_time := 1 / 8,
        elapsed_wall_time := 1 / 8, frame_number := 3 } rfl rfl).2
    rw [h]
    norm_num [effective_fps, RunningAverageSampler.average_frame_rate]

/-- Helper: folding `LinearAverageSampler::tick` from any state holding at
most `max_samples` entries leaves exactly the last `max_samples` of the old
entries followed by the new instantaneous rates (FIFO eviction at
capacity). -/
theorem linear_ticks_window (S : ℕ) (hS : 1 ≤ S) :
    ∀ (ts : List GameTime) (s : LinearAverageSampler),
      s.max_samples = S → s.past_data.length ≤ S →
      (s.ticks ts).max_samples = S ∧
      (s.ticks ts).past_data
        = (s.past_data ++ ts.map effective_fps).drop
            (s.past_data.length + ts.length - S) := by
  intro ts
  induction ts with
  | nil =>
    intro s hm hl
    refine ⟨hm, ?_⟩
    rw [Nat.sub_eq_zero_of_le (by simpa using hl)]
    simp [LinearAverageSampler.ticks]
  | cons t ts ih =>
    intro s hm hl
    have hstep : s.ticks (t :: ts) = (s.tick t).ticks ts := by
      simp [LinearAverageSampler.ticks]
    rw [hstep]
    by_cases hfull : s.past_data.length = S
    · have hsat : s.is_saturated = true := by
        simp [LinearAverageSampler.is_saturated, hm, hfull]
      obtain ⟨a, p, hp⟩ : ∃ a p, s.past_data = a :: p := by
        cases hq : s.past_data with
        | nil => rw [hq] at hfull; simp at hfull; omega
        | cons a p => exact ⟨a, p, rfl⟩
      have htick : (s.tick t).past_data = p ++ [effective_fps t] := by
        simp [LinearAverageSampler.tick, hsat, hp]
      have hlen' : (s.tick t).past_data.length ≤ S := by
        rw [htick]
        have : p.length + 1 = S := by
          have := hfull
          rw [hp] at this
          simpa using this
        simp
        omega
      have hm' : (s.tick t).max_samples = S := by
        simp [LinearAverageSampler.tick, hm]
      obtain ⟨h1, h2⟩ := ih (s.tick t) hm' hlen'
      refine ⟨h1, ?_⟩
      rw [h2, htick, hp]
      have hplen : p.length + 1 = S := by
        have := hfull
        rw [hp] at this
        simpa using this
      have hidx1 : (p ++ [effective_fps t]).length + ts.length - S = ts.length := by
        simp
        omega
      have hidx2 : (a :: p).length + (t :: ts).length - S = ts.length + 1 := by
        simp
        omega
      rw [hidx1, hidx2]
      simp [List.drop_succ_cons, List.append_assoc]
    · have hsat : s.is_saturated = false := by
        simp [LinearAverageSampler.is_saturated, hm, hfull]
      have htick : (s.tick t).past_data = s.past_data ++ [effective_fps t] := by
        simp [LinearAverageSampler.tick, hsat]
      have hlen' : (s.tick t).past_data.length ≤ S := by
        rw [htick]
        simp
        omega
      have hm' : (s.tick t).max_samples = S := by
        simp [LinearAverageSampler.tick, hm]
      obtain ⟨h1, h2⟩ := ih (s.tick t) hm' hlen'
      refine ⟨h1, ?_⟩
      rw [h2, htick]
      have hidx : (s.past_data ++ [effective_fps t]).length + ts.length - S
          = s.past_data.length + (t :: ts).length - S := by
        simp
        omega
      rw [hidx]
      simp [List.append_assoc]

/-- Claim C5: for a `LinearAverageSampler` of capacity `max_samples ≥ 1`,
once at least `max_samples` ticks have been observed the stored data is
exactly the most recent `max_samples` instantaneous rates (oldest evicted
first), `average_frame_rate()` is exactly their arithmetic mean, and
`is_saturated()` is true exactly when the stored sequence has reached
`max_samples` entries (i.e. after at least `max_samples` ticks). -/
theorem c5_linear_average_sampler (S : ℕ) (hS : 1 ≤ S) (ts : List GameTime)
    (h : S ≤ ts.length) :
    ((LinearAverageSampler.with_max_samples S).ticks ts).past_data
      = (ts.map effective_fps).drop (ts.length - S) ∧
    ((LinearAverageSampler.with_max_samples S).ticks ts).average_frame_rate
      = ((ts.map effective_fps).drop (ts.length - S)).sum / (S : ℚ) ∧
    ((LinearAverageSampler.with_max_samples S).ticks ts).is_saturated = true ∧
    (∀ ts' : List GameTime,
      ((LinearAverageSampler.with_max_samples S).ticks ts').is_saturated = true
        ↔ S ≤ ts'.length) := by
  have hbase := linear_ticks_window S hS ts (LinearAverageSampler.with_max_samples S) rfl
    (by simp [LinearAverageSampler.with_max_samples])
  obtain ⟨hmax, hpast⟩ := hbase
  rw [show (LinearAverageSampler.with_max_samples S).past_data = [] from rfl] at hpast
  simp only [List.nil_append, List.length_nil, Nat.zero_add] at hpast
  have hlen : ((LinearAverageSampler.with_max_samples S).ticks ts).past_data.length = S := by
    rw [hpast, List.length_drop, List.length_map]
    omega
  refine ⟨hpast, ?_, ?_, ?_⟩
  · rw [LinearAverageSampler.average_frame_rate, hlen, hpast]
  · simp [LinearAverageSampler.is_saturated, hlen, hmax]
  · intro ts'
    obtain ⟨hmax', hpast'⟩ := linear_ticks_window S hS ts'
      (LinearAverageSampler.with_max_samples S) rfl
      (by simp [LinearAverageSampler.with_max_samples])
    rw [show (LinearAverageSampler.with_max_samples S).past_data = [] from rfl] at hpast'
    simp only [List.nil_append, List.length_nil, Nat.zero_add] at hpast'
    have hlen' : ((LinearAverageSampler.with_max_samples S).ticks ts').past_data.length
        = ts'.length - (ts'.length - S) := by
      rw [hpast', List.length_drop, List.length_map]
    rw [LinearAverageSampler.is_saturated, hmax', hlen', beq_iff_eq]
    omega

/-- Claim C5 witness: capacity 2 with three ticks of rates 2, 4, 8 fps — the
oldest rate 2 is evicted, the window is `[4, 8]`, the average is 6, and the
sampler is saturated after 2 or more ticks. -/
theorem c5_linear_average_sampler_witness :
    (1 ≤ 2 ∧ 2 ≤ 3) ∧
    (((LinearAverageSampler.with_max_samples 2).ticks
        [{ frame_wall_time := 0, frame_game_time := 0, elapsed_game_time := 1 / 2,
           elapsed_wall_time := 1 / 2, frame_number := 1 },
         { frame_wall_time := 0, frame_game_time := 0, elapsed_game_time := 1 / 4,
           elapsed_wall_time := 1 / 4, frame_number := 2 },
         { frame_wall_time := 0, frame_game_time := 0, elapsed_game_time := 1 / 8,
           elapsed_wall_time := 1 / 8, frame_number := 3 }]).past_data = [4, 8]) ∧
    (((LinearAverageSampler.with_max_samples 2).ticks
        [{ frame_wall_time := 0, frame_game_time := 0, elapsed_game_time := 1 / 2,
           elapsed_wall_time := 1 / 2, frame_number := 1 },
         { frame_wall_time := 0, frame_game_time := 0, elapsed_game_time := 1 / 4,
           elapsed_wall_time := 1 / 4, frame_number := 2 },
         { frame_wall_time := 0, frame_game_time := 0, elapsed_game_time := 1 / 8,
           elapsed_wall_time := 1 / 8, frame_number := 3 }]).average_frame_rate = 6) := by
  have h := c5_linear_average_sampler 2 (by norm_num)
    [{ frame_wall_time := 0, frame_game_time := 0, elapsed_game_time := 1 / 2,
       elapsed_wall_time := 1 / 2, frame_number := 1 },
     { frame_wall_time := 0, frame_game_time := 0, elapsed_game_time := 1 / 4,
       elapsed_wall_time := 1 / 4, frame_number := 2 },
     { frame_wall_time := 0, frame_game_time := 0, elapsed_game_time := 1 / 8,
       elapsed_wall_time := 1 / 8, frame_number := 3 }] (by norm_num)
  refine ⟨⟨by norm_num, by norm_num⟩, ?_, ?_⟩
  · rw [h.1]
    norm_num [effective_fps]
  · rw [h.2.1]
    norm_num [effective_fps]

/-- Helper: ticking any clock with multiplier 1 and a nonnegative constant
step `d` over a list of wall times always succeeds, adds `d` per tick to the
game-time accumulator, increments the frame counter by exactly 1 per tick,
and stamps consecutive frame numbers on the emitted snapshots. -/
theorem tick_trace_constant_step (d : ℚ) (hd : 0 ≤ d) :
    ∀ (ws : List ℚ) (c : GameClock), c.clock_multiplier = 1 →
      c.current_frame + ws.length < 2 ^ 64 →
      ∃ c' ts, c.tick_trace (TimeStep.constantStep d) ws = some (c', ts) ∧
        c'.total_game_time = c.total_game_time + (ws.length : ℚ) * d ∧
        c'.current_frame = c.current_frame + ws.length ∧
        ts.map GameTime.frame_number = List.range' (c.current_frame + 1) ws.length ∧
        ∀ t ∈ ts, t.elapsed_game_time = d := by
  intro ws
  induction ws with
  | nil =>
    intro c hm hf
    exact ⟨c, [], rfl, by simp, by simp, by simp [List.range'], by simp⟩
  | cons w ws ih =>
    intro c hm hf
    have hgame : 0 ≤ (TimeStep.constantStep d).time_step (w - c.frame_wall_time) *
        c.clock_multiplier := by
      rw [hm]
      simpa [TimeStep.time_step] using hd
    have hframe : c.current_frame + 1 < 2 ^ 64 := by
      simp at hf
      omega
    have htick := GameClock.tick_eq_of_nonneg c (TimeStep.constantStep d) w hframe hgame
    simp only [TimeStep.time_step, hm, mul_one] at htick
    obtain ⟨c', ts, htr, htot, hfr, hnums, hall⟩ := ih
      { last_frame_time :=
          { frame_wall_time := w
            frame_game_time := c.total_game_time + d
            elapsed_game_time := d
            elapsed_wall_time := w - c.frame_wall_time
            frame_number := c.current_frame + 1 }
        start_wall_time := c.start_wall_time
        total_game_time := c.total_game_time + d
        current_frame := c.current_frame + 1
        clock_multiplier := 1 }
      rfl (by simp at hf ⊢; omega)
    refine ⟨c', { frame_wall_time := w
                  frame_game_time := c.total_game_time + d
                  elapsed_game_time := d
                  elapsed_wall_time := w - c.frame_wall_time
                  frame_number := c.current_frame + 1 } :: ts, ?_, ?_, ?_, ?_, ?_⟩
    · simp only [GameClock.tick_trace, htick, htr]
    · rw [htot]
      simp only [List.length_cons]
      push_cast
      ring
    · rw [hfr]
      simp
      omega
    · simp only [List.map_cons, hnums]
      rfl
    · intro t ht
      rcases List.mem_cons.mp ht with h' | h'
      · rw [h']
      · exact hall t h'

/-- Claim C8: a fresh `GameClock` (multiplier 1.0) ticked N times with
`ConstantStep(d)`, `d ≥ 0`, reaches `total_game_time = N*d` (exactly, in the
idealized rational model) and `frame_number = N`, with the emitted frame
numbers being exactly 1, 2, ..., N (strictly incrementing by 1 per tick);
every snapshot has `elapsed_game_time = d`, so with `ConstantStep(0)` every
snapshot has `elapsed_game_time = 0` and game time never advances. -/
theorem c8_constant_step_ticks (d : ℚ) (hd : 0 ≤ d) (w0 : ℚ) (ws : List ℚ)
    (hN : ws.length < 2 ^ 64) :
    ∃ c' ts, (GameClock.new w0).tick_trace (TimeStep.constantStep d) ws = some (c', ts) ∧
      c'.total_game_time = (ws.length : ℚ) * d ∧
      c'.current_frame = ws.length ∧
      ts.map GameTime.frame_number = List.range' 1 ws.length ∧
      (∀ t ∈ ts, t.elapsed_game_time = d) ∧
      (d = 0 → ∀ t ∈ ts, t.elapsed_game_time = 0) := by
  obtain ⟨c', ts, htr, htot, hfr, hnums, hall⟩ :=
    tick_trace_constant_step d hd ws (GameClock.new w0) rfl (by simpa [GameClock.new] using hN)
  refine ⟨c', ts, htr, ?_, ?_, ?_, hall, ?_⟩
  · rw [htot]
    simp [GameClock.new]
  · rw [hfr]
    simp [GameClock.new]
  · simpa [GameClock.new] using hnums
  · intro h0 t ht
    rw [hall t ht, h0]

/-- Claim C8 witness: three ticks of a fresh clock with `ConstantStep(2)`
reach total game time 6 and frame 3, with frame numbers 1, 2, 3. -/
theorem c8_constant_step_ticks_witness :
    (0 ≤ (2 : ℚ) ∧ ([3, 7, 10] : List ℚ).length < 2 ^ 64) ∧
    (∃ c' ts, (GameClock.new 0).tick_trace (TimeStep.constantStep 2) [3, 7, 10]
        = some (c', ts) ∧
      c'.total_game_time = (([3, 7, 10] : List ℚ).length : ℚ) * 2 ∧
      c'.current_frame = ([3, 7, 10] : List ℚ).length ∧
      ts.map GameTime.frame_number = List.range' 1 ([3, 7, 10] : List ℚ).length ∧
      (∀ t ∈ ts, t.elapsed_game_time = 2) ∧
      ((2 : ℚ) = 0 → ∀ t ∈ ts, t.elapsed_game_time = 0)) :=
  ⟨⟨by norm_num, by norm_num⟩,
   c8_constant_step_ticks 2 (by norm_num) 0 [3, 7, 10] (by norm_num)⟩
